import Mathlib

/-!
Shallow embedding of the VTuber application's core logic.

Sources:
* `FaceTracker` (services/faceTracker.ts): camera tracking loop, calibration,
  exponential smoothing.
* `LiveClient` (services/liveClient.ts): inbound audio message handling,
  playback scheduling cursor, speaking-state events, teardown.
* `AvatarDisplay` (components): the per-frame tracking-mode expression logic.

Numbers are embedded as rationals (the JS code computes with doubles on
exactly representable small constants; all claims are exact arithmetic).
External collaborators (the MediaPipe face landmarker, the video element,
the audio device clock, decoded buffer durations) are modelled as explicit
inputs to the step functions.
-/

/-- Three-component vector of rationals (head rotation / position). -/
structure Vec3 where
  x : ℚ
  y : ℚ
  z : ℚ
deriving DecidableEq, Repr

/-- A JS record mapping blendshape names to scores, embedded as an
association list with unique keys (JS object semantics). -/
abbrev Blendshapes := List (String × ℚ)

/-- Read `m[k] || 0` from a blendshape record: the stored value, or 0 when
the key is absent. -/
def bsLookup (m : Blendshapes) (k : String) : ℚ :=
  match m.find? (fun p => p.1 == k) with
  | some p => p.2
  | none => 0

/-- Write `m[k] = v` into a blendshape record: replace the existing entry,
or append a new one. -/
def bsInsert (m : Blendshapes) (k : String) (v : ℚ) : Blendshapes :=
  if m.any (fun p => p.1 == k) then
    m.map (fun p => if p.1 == k then (k, v) else p)
  else
    m ++ [(k, v)]

/-- TRACKING_FPS = 24 (faceTracker.ts). -/
def TRACKING_FPS : ℚ := 24

/-- FRAME_INTERVAL = 1000 / TRACKING_FPS (faceTracker.ts). -/
def FRAME_INTERVAL : ℚ := 1000 / TRACKING_FPS

/-- SMOOTHING_FACTOR = 0.7 (faceTracker.ts). -/
def SMOOTHING_FACTOR : ℚ := 7 / 10

/-- State of the `FaceTracker` class (faceTracker.ts). The camera stream and
the landmarker object are abstracted to presence flags; the video element's
time/paused/ended are inputs of `predictStep`. -/
structure FaceTracker where
  hasLandmarker : Bool
  hasVideo : Bool
  isRunning : Bool
  lastVideoTime : ℚ
  lastTrackingTime : ℚ
  targetBlendshapes : Blendshapes
  currentBlendshapes : Blendshapes
  neutralBlendshapes : Blendshapes
  neutralRotation : Vec3
  neutralPosition : Vec3
  isCalibrated : Bool
  targetRotation : Vec3
  targetPosition : Vec3
  rotation : Vec3
  position : Vec3
deriving DecidableEq, Repr

/-- FaceTracker.calibrate: no-op unless running; otherwise copies the current
blendshapes / rotation / position into the neutral baseline and sets the
calibrated flag. -/
def calibrate (t : FaceTracker) : FaceTracker :=
  if t.isRunning = false then t
  else
    { t with
      neutralBlendshapes := t.currentBlendshapes
      neutralRotation := t.rotation
      neutralPosition := t.position
      isCalibrated := true }

/-- FaceTracker.getCalibratedBlendshapes: raw pass-through when uncalibrated;
otherwise, for each key of the current record, `current − neutral`, clamped
below at 0, times 1.5. (Iterating the record's own entries: `current` is the
entry's value, `neutral` is looked up with `|| 0` defaulting.) -/
def getCalibratedBlendshapes (t : FaceTracker) : Blendshapes :=
  if t.isCalibrated = false then t.currentBlendshapes
  else
    t.currentBlendshapes.map (fun p =>
      let current := p.2
      let neutral := bsLookup t.neutralBlendshapes p.1
      let val : ℚ := current - neutral
      let val2 : ℚ := if val < 0 then 0 else val
      (p.1, val2 * (3 / 2)))

/-- FaceTracker.getCalibratedRotation. -/
def getCalibratedRotation (t : FaceTracker) : Vec3 :=
  if t.isCalibrated = false then t.rotation
  else
    ⟨t.rotation.x - t.neutralRotation.x,
     t.rotation.y - t.neutralRotation.y,
     t.rotation.z - t.neutralRotation.z⟩

/-- FaceTracker.getCalibratedPosition (zero vector when uncalibrated). -/
def getCalibratedPosition (t : FaceTracker) : Vec3 :=
  if t.isCalibrated = false then ⟨0, 0, 0⟩
  else
    ⟨t.position.x - t.neutralPosition.x,
     t.position.y - t.neutralPosition.y,
     t.position.z - t.neutralPosition.z⟩

/-- FaceTracker.lerp: `(1 - amt) * start + amt * end`. -/
def lerp (start e amt : ℚ) : ℚ :=
  (1 - amt) * start + amt * e

/-- One blendshape channel of FaceTracker.updateSmoothing: a target below
0.05 is snapped to 0, then the current value is interpolated toward it with
SMOOTHING_FACTOR. -/
def smoothChannel (current target : ℚ) : ℚ :=
  let cleanTarget : ℚ := if target < 1 / 20 then 0 else target
  lerp current cleanTarget SMOOTHING_FACTOR

/-- The blendshape loop of FaceTracker.updateSmoothing: each key of the
target record updates the corresponding current entry. -/
def smoothShapes (target current : Blendshapes) : Blendshapes :=
  target.foldl
    (fun cur p => bsInsert cur p.1 (smoothChannel (bsLookup cur p.1) p.2))
    current

/-- FaceTracker.updateSmoothing: interpolate the 3 rotation axes, the 3
position axes, and every blendshape key of the target record toward their
targets with SMOOTHING_FACTOR. -/
def updateSmoothing (t : FaceTracker) : FaceTracker :=
  { t with
    rotation :=
      ⟨lerp t.rotation.x t.targetRotation.x SMOOTHING_FACTOR,
       lerp t.rotation.y t.targetRotation.y SMOOTHING_FACTOR,
       lerp t.rotation.z t.targetRotation.z SMOOTHING_FACTOR⟩
    position :=
      ⟨lerp t.position.x t.targetPosition.x SMOOTHING_FACTOR,
       lerp t.position.y t.targetPosition.y SMOOTHING_FACTOR,
       lerp t.position.z t.targetPosition.z SMOOTHING_FACTOR⟩
    currentBlendshapes := smoothShapes t.targetBlendshapes t.currentBlendshapes }

/-- Outcome of one `detectForVideo` call, an external collaborator: the call
may throw (caught by the tracker), return no face, or return a face with
blendshape categories and an optional facial transformation matrix. The
matrix is abstracted to the Euler angles `setFromRotationMatrix` extracts
and the translation column `matrixData[12..14]`. -/
inductive DetectOutcome where
  | err : DetectOutcome
  | noFace : DetectOutcome
  | face (shapes : Blendshapes) (transform : Option (Vec3 × Vec3)) : DetectOutcome
deriving DecidableEq, Repr

/-- Inputs of one `predict` callback invocation: the clock reading
`performance.now()`, the video element's currentTime / paused / ended, and
the detection outcome were the tracker to call `detectForVideo`. -/
structure PredictInput where
  now : ℚ
  videoTime : ℚ
  paused : Bool
  ended : Bool
  detect : DetectOutcome
deriving DecidableEq, Repr

/-- The tracking-loop body of FaceTracker.predict (one invocation, without
the self-rescheduling): early return unless running with a landmarker and a
video; otherwise run the throttled tracking block (gated on FRAME_INTERVAL
elapsed and the video frame having advanced), then updateSmoothing
unconditionally. -/
def predictStep (t : FaceTracker) (inp : PredictInput) : FaceTracker :=
  if t.isRunning = false ∨ t.hasLandmarker = false ∨ t.hasVideo = false then t
  else
    let t1 :=
      if FRAME_INTERVAL ≤ inp.now - t.lastTrackingTime then
        if inp.videoTime ≠ t.lastVideoTime ∧ inp.paused = false ∧ inp.ended = false then
          let t2 := { t with lastVideoTime := inp.videoTime, lastTrackingTime := inp.now }
          match inp.detect with
          | DetectOutcome.err => t2
          | DetectOutcome.noFace => t2
          | DetectOutcome.face shapes transform =>
            let t3 :=
              { t2 with
                targetBlendshapes :=
                  shapes.foldl (fun m p => bsInsert m p.1 p.2) t2.targetBlendshapes }
            match transform with
            | none => t3
            | some (euler, tvec) =>
              { t3 with
                targetRotation := ⟨euler.x, -euler.y, -euler.z⟩
                targetPosition := ⟨-tvec.x, -tvec.y, -tvec.z⟩ }
        else t
      else t
    updateSmoothing t1

/-- Iterating one smoothed scalar channel from a start value toward a
constant target, n ticks of the updateSmoothing channel rule. -/
def smoothIterN (x0 target : ℚ) : ℕ → ℚ
  | 0 => x0
  | n + 1 => smoothChannel (smoothIterN x0 target n) target

/-- Scheduling state of the LiveClient audio engine (liveClient.ts): the
playback cursor `nextStartTime`, in output-device clock seconds. -/
structure LiveState where
  nextStartTime : ℚ
deriving DecidableEq, Repr

/-- One inbound server message, as LiveClient.handleMessage reads it: an
optional audio payload (abstracted to the decoded buffer's duration in
seconds, nonnegative for a real buffer) and the `interrupted` flag. -/
structure InMessage where
  audio : Option ℚ
  interrupted : Bool
deriving DecidableEq, Repr

/-- A real inbound message: any decoded audio buffer has a nonnegative
duration. -/
def InMessage.wf (m : InMessage) : Prop :=
  ∀ d, m.audio = some d → 0 ≤ d

/-- Observable actions of LiveClient.handleMessage, in emission order. -/
inductive AudioEvent where
  | speakingStart : AudioEvent
  | speakingStop : AudioEvent
  | scheduled (startAt : ℚ) : AudioEvent
deriving DecidableEq, Repr

/-- LiveClient.handleMessage, given the output-device clock reading at
entry: on an audio payload, emit onAiSpeakingStart, raise the cursor to the
clock (`nextStartTime = max(nextStartTime, currentTime)`), start the buffer
at the cursor, and advance the cursor by the buffer duration; then, if the
message carries `interrupted`, reset the cursor to 0 and emit
onAiSpeakingStop. Returns the new state and the emitted events. -/
def handleMessage (s : LiveState) (currentTime : ℚ) (m : InMessage) :
    LiveState × List AudioEvent :=
  let (s1, evs1) :=
    match m.audio with
    | some dur =>
      let startAt := max s.nextStartTime currentTime
      (⟨startAt + dur⟩, [AudioEvent.speakingStart, AudioEvent.scheduled startAt])
    | none => (s, [])
  if m.interrupted then
    (⟨0⟩, evs1 ++ [AudioEvent.speakingStop])
  else (s1, evs1)

/-- Resource references of the LiveClient, abstracted to held/released
flags, in declaration order: metering timer, script processor, media-stream
source, microphone stream, input context, output context, current session,
session promise. -/
structure LiveResources where
  volumeInterval : Bool
  processor : Bool
  source : Bool
  mediaStream : Bool
  inputAudioContext : Bool
  outputAudioContext : Bool
  currentSession : Bool
  sessionPromise : Bool
deriving DecidableEq, Repr

/-- Releasing actions LiveClient.disconnect can perform. -/
inductive TeardownAction where
  | clearVolumeTimer : TeardownAction
  | disconnectProcessor : TeardownAction
  | disconnectSource : TeardownAction
  | stopMediaTracks : TeardownAction
  | closeInputContext : TeardownAction
  | closeOutputContext : TeardownAction
deriving DecidableEq, Repr

/-- LiveClient.disconnect: each held resource is released under a null
check and its reference cleared; the session references are dropped
unconditionally. Returns the new state and the releasing actions
performed, in order. -/
def disconnect (r : LiveResources) : LiveResources × List TeardownAction :=
  let (r1, a1) :=
    if r.volumeInterval then
      ({ r with volumeInterval := false }, [TeardownAction.clearVolumeTimer])
    else (r, [])
  let (r2, a2) :=
    if r1.processor then
      ({ r1 with processor := false }, [TeardownAction.disconnectProcessor])
    else (r1, [])
  let (r3, a3) :=
    if r2.source then
      ({ r2 with source := false }, [TeardownAction.disconnectSource])
    else (r2, [])
  let (r4, a4) :=
    if r3.mediaStream then
      ({ r3 with mediaStream := false }, [TeardownAction.stopMediaTracks])
    else (r3, [])
  let (r5, a5) :=
    if r4.inputAudioContext then
      ({ r4 with inputAudioContext := false }, [TeardownAction.closeInputContext])
    else (r4, [])
  let (r6, a6) :=
    if r5.outputAudioContext then
      ({ r5 with outputAudioContext := false }, [TeardownAction.closeOutputContext])
    else (r5, [])
  let r7 := { r6 with currentSession := false, sessionPromise := false }
  (r7, a1 ++ a2 ++ a3 ++ a4 ++ a5 ++ a6)

/-- The fully-released LiveClient resource state. -/
def released : LiveResources :=
  ⟨false, false, false, false, false, false, false, false⟩

/-- Expression weights the AvatarDisplay animate loop writes in tracking
mode. -/
structure Expressions where
  blinkLeft : ℚ
  blinkRight : ℚ
  happy : ℚ
  angry : ℚ
  sad : ℚ
  surprised : ℚ
  aa : ℚ
  ou : ℚ
deriving DecidableEq, Repr

/-- The tracking-mode expression logic of the AvatarDisplay animate loop,
for a nonempty calibrated blendshape record `s`, in the case where the AI
is not speaking (so the jaw/pucker block runs and no lip-sync override
follows): blink snap at 0.4; happy from the smile average with a 1.5 boost
capped at 1; angry/sad suppressed by happy; surprised additive; `aa`
forced to 0 when happy > 0.2, else `min(1, jawOpen * 1.5)`; `ou` gated on
pucker > 0.4 and happy < 0.3. -/
def trackingExpressionsNoAi (s : Blendshapes) : Expressions :=
  let get := fun n => bsLookup s n
  let blinkL0 := get "eyeBlinkLeft"
  let blinkR0 := get "eyeBlinkRight"
  let blinkL := if blinkL0 > 2 / 5 then 1 else blinkL0
  let blinkR := if blinkR0 > 2 / 5 then 1 else blinkR0
  let smileRaw := (get "mouthSmileLeft" + get "mouthSmileRight") / 2
  let happy := min 1 (smileRaw * (3 / 2))
  let angryRaw := (get "browDownLeft" + get "browDownRight") / 2
  let angry := min 1 (angryRaw * (3 / 2)) * (1 - happy)
  let sad := get "browInnerUp" * (1 - happy)
  let surprised := get "browOuterUpLeft" + get "browOuterUpRight"
  let jawOpen0 := get "jawOpen"
  let aa := if happy > 1 / 5 then 0 else min 1 (jawOpen0 * (3 / 2))
  let pucker := get "mouthPucker"
  let ou :=
    if pucker > 2 / 5 ∧ happy < 3 / 10 then min 1 (pucker * (3 / 2)) else 0
  ⟨blinkL, blinkR, happy, angry, sad, surprised, aa, ou⟩

/-- A neutral FaceTracker used as the base of concrete test states. -/
def baseTracker : FaceTracker :=
  { hasLandmarker := true
    hasVideo := true
    isRunning := true
    lastVideoTime := 0
    lastTrackingTime := 0
    targetBlendshapes := []
    currentBlendshapes := []
    neutralBlendshapes := []
    neutralRotation := ⟨0, 0, 0⟩
    neutralPosition := ⟨0, 0, 0⟩
    isCalibrated := false
    targetRotation := ⟨0, 0, 0⟩
    targetPosition := ⟨0, 0, 0⟩
    rotation := ⟨0, 0, 0⟩
    position := ⟨0, 0, 0⟩ }

/-- Modelled from the spec's words, for comparison with the source: per key
of the current frame, `max(0, current − baseline[key]) * 1.5`, with no
upper clamp. -/
def specCalibratedBlendshapes (current baseline : Blendshapes) : Blendshapes :=
  current.map (fun p => (p.1, max 0 (p.2 - bsLookup baseline p.1) * (3 / 2)))

/-- The source's negative clamp equals taking a max with 0. -/
theorem if_lt_zero_eq_max (v : ℚ) : (if v < 0 then 0 else v) = max 0 v := by
  rcases lt_or_le v 0 with h | h
  · rw [if_pos h, max_eq_left h.le]
  · rw [if_neg (not_lt.mpr h), max_eq_right h]

/-- C1: when a calibration baseline exists, getCalibratedBlendshapes maps
every key of the current frame to max(0, current − baseline[key]) × 1.5
with no upper clamp; when no baseline exists it returns the raw current
values unchanged. -/
theorem c1_calibrated_blendshapes (t u : FaceTracker)
    (hc : t.isCalibrated = true) (hu : u.isCalibrated = false) :
    getCalibratedBlendshapes t
        = specCalibratedBlendshapes t.currentBlendshapes t.neutralBlendshapes
      ∧ getCalibratedBlendshapes u = u.currentBlendshapes := by
  constructor
  · unfold getCalibratedBlendshapes specCalibratedBlendshapes
    rw [hc]
    simp only [Bool.true_eq_false, if_false]
    congr 1
    funext p
    simp only [if_lt_zero_eq_max]
  · simp [getCalibratedBlendshapes, hu]

/-- Calibrated tracker whose current frame has a 0.6 score over a 0.2
baseline (spec example) and a 1.0 score over a 0 baseline (boosts to 1.5,
above 1, showing the absence of an upper clamp). -/
def c1T : FaceTracker :=
  { baseTracker with
    isCalibrated := true
    currentBlendshapes := [("mouthSmileLeft", 3 / 5), ("browInnerUp", 1)]
    neutralBlendshapes := [("mouthSmileLeft", 1 / 5)] }

/-- The same tracker, uncalibrated. -/
def c1U : FaceTracker := { c1T with isCalibrated := false }

/-- C1 witness: the theorem applied to the concrete calibrated and
uncalibrated trackers, plus the evaluated output showing 0.6 − 0.2 → 0.6
and the unclamped 1.5 value. -/
theorem c1_witness :
    (getCalibratedBlendshapes c1T
        = specCalibratedBlendshapes c1T.currentBlendshapes c1T.neutralBlendshapes
      ∧ getCalibratedBlendshapes c1U = c1U.currentBlendshapes)
      ∧ getCalibratedBlendshapes c1T
        = [("mouthSmileLeft", 3 / 5), ("browInnerUp", 3 / 2)] := by
  refine ⟨c1_calibrated_blendshapes c1T c1U rfl rfl, ?_⟩
  simp [getCalibratedBlendshapes, c1T, baseTracker, bsLookup, List.find?]
  norm_num

/-- C7: calibrate while the tracker is not running changes nothing. -/
theorem c7_calibrate_noop (t : FaceTracker) (h : t.isRunning = false) :
    calibrate t = t := by
  simp [calibrate, h]

/-- Stopped tracker with nonempty state, for the C7 witness. -/
def c7T : FaceTracker :=
  { c1T with isRunning := false, rotation := ⟨1, 2, 3⟩ }

/-- C7 witness: the theorem applied to a concrete stopped tracker. -/
theorem c7_witness : calibrate c7T = c7T :=
  c7_calibrate_noop c7T rfl

/-- C9: one smoothed channel starting at 0 with constant target 1 reaches
at least 0.999 within 10 iterations of the updateSmoothing channel rule. -/
theorem c9_smoothing_convergence : 999 / 1000 ≤ smoothIterN 0 1 10 := by
  norm_num [smoothIterN, smoothChannel, lerp, SMOOTHING_FACTOR]

/-- Running tracker whose last tracking tick was at time 100 and whose
blendshape state (0) lags its target (1). -/
def c4T : FaceTracker :=
  { baseTracker with
    lastTrackingTime := 100
    currentBlendshapes := [("jawOpen", 0)]
    targetBlendshapes := [("jawOpen", 1)] }

/-- A predict invocation only 1 ms after the last tracking tick, well under
FRAME_INTERVAL ≈ 41.67 ms, so the elapsed-time gate makes the tracking part
of the tick a no-op. -/
def c4Inp : PredictInput :=
  { now := 101
    videoTime := 1
    paused := false
    ended := false
    detect := DetectOutcome.noFace }

/-- C4 counterexample: on a tick whose elapsed-time gate fails (1 ms <
FRAME_INTERVAL), the smoothing update still runs — the smoothed blendshape
moves from 0 to 0.7 — so the claim that no smoothing happens on a no-op
tick is false. -/
theorem c4_counterexample :
    c4Inp.now - c4T.lastTrackingTime < FRAME_INTERVAL
      ∧ bsLookup c4T.currentBlendshapes "jawOpen" = 0
      ∧ bsLookup (predictStep c4T c4Inp).currentBlendshapes "jawOpen" = 7 / 10 := by
  refine ⟨?_, ?_, ?_⟩
  · norm_num [c4Inp, c4T, baseTracker, FRAME_INTERVAL, TRACKING_FPS]
  · simp [c4T, baseTracker, bsLookup, List.find?]
  · have hgate : ¬ FRAME_INTERVAL ≤ c4Inp.now - c4T.lastTrackingTime := by
      norm_num [c4Inp, c4T, baseTracker, FRAME_INTERVAL, TRACKING_FPS]
    simp only [predictStep, c4T, c4Inp, baseTracker]
    norm_num [FRAME_INTERVAL, TRACKING_FPS, updateSmoothing, smoothShapes,
      bsInsert, bsLookup, List.find?, smoothChannel, lerp, SMOOTHING_FACTOR]

/-- C4 (amended): while the tracker is running with a landmarker and a
video, the smoothing update is performed exactly once per predict tick,
including ticks the elapsed-time/frame-advance gate turns into tracking
no-ops: on such a gated tick, the whole step is exactly one smoothing
update of the prior state. -/
theorem c4_smoothing_every_tick (t : FaceTracker) (inp : PredictInput)
    (hr : t.isRunning = true) (hl : t.hasLandmarker = true)
    (hv : t.hasVideo = true)
    (hgate : inp.now - t.lastTrackingTime < FRAME_INTERVAL
      ∨ inp.videoTime = t.lastVideoTime ∨ inp.paused = true ∨ inp.ended = true) :
    predictStep t inp = updateSmoothing t := by
  unfold predictStep
  rw [hr, hl, hv]
  simp only [Bool.true_eq_false, or_self, if_false]
  rcases hgate with h1 | h2 | h3 | h4
  · rw [if_neg (not_le.mpr h1)]
  · by_cases hf : FRAME_INTERVAL ≤ inp.now - t.lastTrackingTime
    · rw [if_pos hf, if_neg (by intro hc; exact hc.1 h2)]
    · rw [if_neg hf]
  · by_cases hf : FRAME_INTERVAL ≤ inp.now - t.lastTrackingTime
    · rw [if_pos hf, if_neg (by intro hc; rw [h3] at hc; simp at hc)]
    · rw [if_neg hf]
  · by_cases hf : FRAME_INTERVAL ≤ inp.now - t.lastTrackingTime
    · rw [if_pos hf, if_neg (by intro hc; rw [h4] at hc; simp at hc)]
    · rw [if_neg hf]

/-- C4 witness: the amended theorem applied to the concrete gated tick. -/
theorem c4_witness : predictStep c4T c4Inp = updateSmoothing c4T :=
  c4_smoothing_every_tick c4T c4Inp rfl rfl rfl
    (Or.inl (by norm_num [c4Inp, c4T, baseTracker, FRAME_INTERVAL, TRACKING_FPS]))

set_option linter.unnecessarySeqFocus false in
/-- C2: on an inbound audio payload, the playback start is
startAt = max(nextStartTime, currentDeviceTime), the buffer is scheduled at
startAt, and the cursor advances to startAt + bufferDuration; in the
two-chunk example (durations 0.5s and 0.3s, clock at 0), chunk 1 is
scheduled at 0, chunk 2 at 0.5, and the cursor ends at 0.8. -/
theorem c2_playback_scheduling (s : LiveState) (t dur : ℚ) :
    ((handleMessage s t ⟨some dur, false⟩).1.nextStartTime
        = max s.nextStartTime t + dur
      ∧ (handleMessage s t ⟨some dur, false⟩).2
        = [AudioEvent.speakingStart, AudioEvent.scheduled (max s.nextStartTime t)])
    ∧ ((handleMessage ⟨0⟩ 0 ⟨some (1 / 2), false⟩).2
        = [AudioEvent.speakingStart, AudioEvent.scheduled 0]
      ∧ (handleMessage (handleMessage ⟨0⟩ 0 ⟨some (1 / 2), false⟩).1 0
            ⟨some (3 / 10), false⟩).2
        = [AudioEvent.speakingStart, AudioEvent.scheduled (1 / 2)]
      ∧ (handleMessage (handleMessage ⟨0⟩ 0 ⟨some (1 / 2), false⟩).1 0
            ⟨some (3 / 10), false⟩).1.nextStartTime = 4 / 5) := by
  refine ⟨⟨?_, ?_⟩, ?_, ?_, ?_⟩ <;> simp [handleMessage] <;> norm_num

/-- LiveClient state with 0.5 seconds of audio still scheduled beyond a
device clock at 0: buffered audio is pending. -/
def c3S : LiveState := ⟨1 / 2⟩

/-- C3 counterexample: an audio payload arriving while buffered audio is
still pending (cursor 0.5 ahead of a device clock at 0) still emits
onAiSpeakingStart, so the claim that it is suppressed is false. -/
theorem c3_counterexample :
    (0 : ℚ) < c3S.nextStartTime
      ∧ AudioEvent.speakingStart ∈ (handleMessage c3S 0 ⟨some (3 / 10), false⟩).2 := by
  constructor
  · norm_num [c3S]
  · simp [handleMessage]

/-- C3 (amended): onAiSpeakingStart is emitted on every inbound audio
payload, whether or not previously scheduled audio is still pending. -/
theorem c3_speaking_start_every_payload (s : LiveState) (t dur : ℚ) (intr : Bool) :
    AudioEvent.speakingStart ∈ (handleMessage s t ⟨some dur, intr⟩).2 := by
  cases intr <;> simp [handleMessage]

/-- C5: for every well-formed inbound message (decoded buffer durations are
nonnegative), a non-interrupted message never decreases the nextStartTime
cursor, and an interrupted message resets it to 0. -/
theorem c5_cursor_monotone (s : LiveState) (t : ℚ) (m : InMessage)
    (hw : m.wf) :
    (m.interrupted = false →
        s.nextStartTime ≤ (handleMessage s t m).1.nextStartTime)
      ∧ (m.interrupted = true → (handleMessage s t m).1.nextStartTime = 0) := by
  constructor
  · intro hi
    rcases hm : m.audio with _ | dur
    · simp [handleMessage, hi, hm]
    · have hd := hw dur hm
      simp only [handleMessage, hi, hm]
      calc s.nextStartTime ≤ max s.nextStartTime t := le_max_left _ _
        _ ≤ max s.nextStartTime t + dur := le_add_of_nonneg_right hd
  · intro hi
    rcases hm : m.audio with _ | dur <;> simp [handleMessage, hi, hm]

/-- C5 witness: the theorem applied to a concrete audio message (cursor 1,
clock 0, duration 0.5: the cursor may only grow) and a concrete interrupted
message (cursor reset to 0). -/
theorem c5_witness :
    ((⟨1⟩ : LiveState).nextStartTime
        ≤ (handleMessage ⟨1⟩ 0 ⟨some (1 / 2), false⟩).1.nextStartTime)
      ∧ (handleMessage ⟨1⟩ 0 ⟨none, true⟩).1.nextStartTime = 0 := by
  have h1 := c5_cursor_monotone ⟨1⟩ 0 ⟨some (1 / 2), false⟩
    (by intro d hd; simp only [Option.some.injEq] at hd; rw [← hd]; norm_num)
  have h2 := c5_cursor_monotone ⟨1⟩ 0 ⟨none, true⟩
    (by intro d hd; simp at hd)
  exact ⟨h1.1 rfl, h2.2 rfl⟩

/-- C6: for every inbound message carrying the interrupted flag, the handler
resets nextStartTime to 0 and emits onAiSpeakingStop within that same
message's handling, regardless of any audio payload or pending buffers. -/
theorem c6_interrupted_reset (s : LiveState) (t : ℚ) (m : InMessage)
    (h : m.interrupted = true) :
    (handleMessage s t m).1.nextStartTime = 0
      ∧ AudioEvent.speakingStop ∈ (handleMessage s t m).2 := by
  rcases hm : m.audio with _ | dur <;> simp [handleMessage, h, hm]

/-- C6 witness: the theorem applied to an interrupted message that also
carries audio, with a nonzero cursor. -/
theorem c6_witness :
    (handleMessage ⟨2⟩ 1 ⟨some (1 / 2), true⟩).1.nextStartTime = 0
      ∧ AudioEvent.speakingStop ∈ (handleMessage ⟨2⟩ 1 ⟨some (1 / 2), true⟩).2 :=
  c6_interrupted_reset ⟨2⟩ 1 ⟨some (1 / 2), true⟩ rfl

/-- C8: in tracking mode with the AI not speaking, the jaw-open expression
"aa" is 0 whenever the happy weight (min(1, smile average × 1.5)) exceeds
0.2, regardless of the jawOpen input, and otherwise is
min(1, jawOpen × 1.5). -/
theorem c8_jaw_closed_rule (s : Blendshapes) :
    (min 1 ((bsLookup s "mouthSmileLeft" + bsLookup s "mouthSmileRight") / 2 * (3 / 2))
          > 1 / 5 →
        (trackingExpressionsNoAi s).aa = 0)
      ∧ (¬ min 1 ((bsLookup s "mouthSmileLeft" + bsLookup s "mouthSmileRight") / 2 * (3 / 2))
          > 1 / 5 →
        (trackingExpressionsNoAi s).aa = min 1 (bsLookup s "jawOpen" * (3 / 2))) := by
  have e : (trackingExpressionsNoAi s).aa
      = if min 1 ((bsLookup s "mouthSmileLeft" + bsLookup s "mouthSmileRight") / 2 * (3 / 2))
            > 1 / 5
        then 0 else min 1 (bsLookup s "jawOpen" * (3 / 2)) := rfl
  rw [e]
  constructor <;> intro h
  · rw [if_pos h]
  · rw [if_neg h]

/-- Blendshape frame with smile scores 0.2 (so happy = 0.3 > 0.2) and a raw
jawOpen of 0.9: the spec's jaw-closed example. -/
def c8Happy : Blendshapes :=
  [("mouthSmileLeft", 1 / 5), ("mouthSmileRight", 1 / 5), ("jawOpen", 9 / 10)]

/-- Blendshape frame with no smile and the same jawOpen of 0.9. -/
def c8Plain : Blendshapes := [("jawOpen", 9 / 10)]

set_option linter.unnecessarySeqFocus false in
/-- C8 witness: the theorem applied to the spec's example frame (happy =
0.3, jawOpen = 0.9 gives aa = 0) and to a no-smile frame (aa follows the
jaw). -/
theorem c8_witness :
    (trackingExpressionsNoAi c8Happy).aa = 0
      ∧ (trackingExpressionsNoAi c8Plain).aa
        = min 1 (bsLookup c8Plain "jawOpen" * (3 / 2)) := by
  refine ⟨(c8_jaw_closed_rule c8Happy).1 ?_, (c8_jaw_closed_rule c8Plain).2 ?_⟩ <;>
    simp [c8Happy, c8Plain, bsLookup, List.find?] <;> norm_num

/-- C10: one disconnect call releases every resource reference (the result
is the fully-null state), and a second disconnect call performs no
releasing action and leaves the state unchanged. -/
theorem c10_disconnect_idempotent (r : LiveResources) :
    (disconnect r).1 = released
      ∧ (disconnect (disconnect r).1).2 = []
      ∧ (disconnect (disconnect r).1).1 = (disconnect r).1 := by
  rcases r with ⟨v, p, s, m, i, o, c, sp⟩
  cases v <;> cases p <;> cases s <;> cases m <;> cases i <;> cases o <;>
    cases c <;> cases sp <;> decide
